import Mathlib

/-
Verification of the auto-toggle engine of Control-Simple
(src/orchestrator/auto_toggle.py and its call site in src/orchestrator/bot.py).

The loop body of _auto_toggle_loop is embedded as a pure function on the
persisted state, taking the observable outcome of the HTTP fetch as input.
Machine floats are modelled as rationals; file writes are modelled as updates
to the parsed view of the three state files.
-/

namespace AutoToggle

/-- Python values as produced by resp.json(), restricted to JSON shapes. -/
inductive JVal where
  | null
  | bool (b : Bool)
  | num (q : ℚ)
  | str (s : String)
  | arr (xs : List JVal)
  | obj (fields : List (String × JVal))

/-- dict.get(key) with default None: first binding of the key, else null. -/
def pyGet (fields : List (String × JVal)) (k : String) : JVal :=
  match fields.lookup k with
  | some v => v
  | none => JVal.null

/-- Python truthiness of a JSON-shaped value. -/
def pyTruthy : JVal → Bool
  | JVal.null => false
  | JVal.bool b => b
  | JVal.num q => decide (q ≠ 0)
  | JVal.str s => decide (s ≠ "")
  | JVal.arr xs => !xs.isEmpty
  | JVal.obj fields => !fields.isEmpty

/-- Python `a or b`: the first operand when truthy, else the second. -/
def pyOr (a b : JVal) : JVal :=
  if pyTruthy a then a else b

/-- Python isinstance(x, (int, float)). Note bool is a subclass of int in
Python, so booleans pass this check. -/
def pyIsNumber : JVal → Bool
  | JVal.num _ => true
  | JVal.bool _ => true
  | _ => false

def JVal.isNull : JVal → Bool
  | JVal.null => true
  | _ => false

/-- Numeric value of a value accepted by pyIsNumber (float(x) for int/float/bool). -/
def pyNumVal : JVal → ℚ
  | JVal.num q => q
  | JVal.bool b => if b then 1 else 0
  | _ => 0

/-- Value of a list of decimal digit characters. -/
def digitsVal (l : List Char) : ℚ :=
  l.foldl (fun acc c => acc * 10 + ((c.toNat - 48 : ℕ) : ℚ)) 0

/-- The decimal core of Python float(string): optional sign, then digits with
at most one decimal point and at least one digit. Exponent forms, underscores
and inf/nan are not modelled; no claim exercises them. -/
def parsePyFloat (s : String) : Option ℚ :=
  let cs := s.trim.toList
  let signed : ℚ × List Char :=
    match cs with
    | '-' :: r => (-1, r)
    | '+' :: r => (1, r)
    | r => (1, r)
  let intPart := signed.2.takeWhile Char.isDigit
  let rest := signed.2.dropWhile Char.isDigit
  match rest with
  | [] => if intPart.isEmpty then none else some (signed.1 * digitsVal intPart)
  | '.' :: frac =>
    if frac.all Char.isDigit && !(intPart.isEmpty && frac.isEmpty) then
      some (signed.1 * (digitsVal intPart + digitsVal frac / (10 ^ frac.length)))
    else none
  | _ => none

/-- Python float(x) on an arbitrary value, as Option: some on success, none
when float() raises. -/
def pyFloat : JVal → Option ℚ
  | JVal.num q => some q
  | JVal.bool b => some (if b then 1 else 0)
  | JVal.str s => parsePyFloat s
  | _ => none

/-- Contribution of one element of the trades list to total_profit
(auto_toggle.py lines 199-214): non-dict records are skipped; profit_abs is
used when isinstance(int, float) accepts it; otherwise the estimate
float(stake_amt) * float(profit_pct) / 100 is added when profit_pct and the
first truthy of stake_amount / stake_amount_fiat / amount are both non-None
and both conversions succeed (any exception is swallowed by the bare except). -/
def tradeAdd : JVal → ℚ
  | JVal.obj fields =>
    let pa := pyGet fields "profit_abs"
    if pyIsNumber pa then pyNumVal pa
    else
      let pct := pyGet fields "profit_pct"
      let stakeAmt := pyOr (pyGet fields "stake_amount")
        (pyOr (pyGet fields "stake_amount_fiat") (pyGet fields "amount"))
      if !pct.isNull && !stakeAmt.isNull then
        match pyFloat stakeAmt, pyFloat pct with
        | some sa, some p => sa * p / 100
        | _, _ => 0
      else 0
  | _ => 0

/-- PnL extraction from the fetched JSON (auto_toggle.py lines 187-215):
for a dict, the trades key when it is a list (else the empty list); for a
list, the list itself; summed with tradeAdd. Any other shape leaves pnl
unset (None). -/
def extractPnl : JVal → Option ℚ
  | JVal.obj fields =>
    let trades : List JVal :=
      match pyGet fields "trades" with
      | JVal.arr xs => xs
      | _ => []
    some (trades.foldl (fun acc t => acc + tradeAdd t) 0)
  | JVal.arr xs => some (xs.foldl (fun acc t => acc + tradeAdd t) 0)
  | _ => none

/-- The parsed view of the three persisted state files, as returned by
_read_baseline, _read_direction and _read_peak: none when the file is
absent or unreadable. -/
structure TState where
  baseline : Option ℚ
  direction : Option String
  peak : Option ℚ
deriving DecidableEq

/-- Actuator invocations observable during a tick. -/
inductive Event where
  | stopShort
  | startLong
  | stopLong
  | startShort
deriving DecidableEq

/-- Whether each injected actuator callable raises when invoked. -/
structure ActuatorFaults where
  startLongRaises : Bool
  stopLongRaises : Bool
  startShortRaises : Bool
  stopShortRaises : Bool

/-- Python exception classes relevant to this module. -/
inductive PyErr where
  | valueError
  | typeError
  | runtimeError
deriving DecidableEq

/-- Truthiness test `current_direction and current_direction != 'none'`
(lines 258 and 313): the direction string read from file is non-empty and
not the literal none. -/
def dirActive : Option String → Bool
  | some d => decide (d ≠ "") && decide (d ≠ "none")
  | none => false

/-- Peak update (lines 257-309). The telegram notification sent on an update
is wrapped in try/except and never affects state; it is not modelled. Only
the peak file is ever written here; the returned value is its new parsed
content. -/
def peakUpdate (dir : Option String) (peak : Option ℚ) (baseline pnl : ℚ) :
    Option ℚ :=
  if dirActive dir then
    if dir = some "long" ∧ pnl < baseline then
      match peak with
      | none => some pnl
      | some p => if pnl < p then some pnl else some p
    else if dir = some "short" ∧ baseline < pnl then
      match peak with
      | none => some pnl
      | some p => if p < pnl then some pnl else some p
    else peak
  else peak

/-- Flip decision (lines 311-329): the drawback rule when the direction is
active and a peak was read, else the baseline-threshold rule. The fixed
drawback constant is 500. -/
def flipDecision (dir : Option String) (peak : Option ℚ)
    (baseline threshold pnl : ℚ) : Option String :=
  match dirActive dir, peak with
  | true, some p =>
    if dir = some "long" ∧ p + 500 ≤ pnl then some "short"
    else if dir = some "short" ∧ pnl ≤ p - 500 then some "long"
    else none
  | _, _ =>
    let delta := pnl - baseline
    if delta ≤ -threshold then some "long"
    else if threshold ≤ delta then some "short"
    else none

/-- Drop a leading fill/align pair or lone align character of a Python
format spec. -/
def dropAlign : List Char → List Char
  | a :: b :: rest =>
    if b = '<' ∨ b = '>' ∨ b = '^' ∨ b = '=' then rest
    else if a = '<' ∨ a = '>' ∨ a = '^' ∨ a = '=' then b :: rest
    else a :: b :: rest
  | [a] => if a = '<' ∨ a = '>' ∨ a = '^' ∨ a = '=' then [] else [a]
  | [] => []

/-- Drop one leading character satisfying p. -/
def dropOne (p : Char → Bool) : List Char → List Char
  | c :: rest => if p c then rest else c :: rest
  | [] => []

/-- Recognizer for the format-spec mini-language accepted by
float.__format__: [[fill]align][sign][z][#][0][width][grouping][.precision]
[type], with nothing allowed after the type character. -/
def validFloatFormatSpec (s : String) : Bool :=
  let cs := dropAlign s.toList
  let cs := dropOne (fun c => c = '+' || c = '-' || c = ' ') cs
  let cs := dropOne (fun c => c = 'z') cs
  let cs := dropOne (fun c => c = '#') cs
  let cs := cs.dropWhile Char.isDigit
  let cs := dropOne (fun c => c = ',' || c = '_') cs
  match cs with
  | '.' :: rest =>
    let ds := rest.takeWhile Char.isDigit
    if ds.isEmpty then false
    else
      match rest.dropWhile Char.isDigit with
      | [] => true
      | [c] => c = 'e' || c = 'E' || c = 'f' || c = 'F' || c = 'g' ||
          c = 'G' || c = 'n' || c = '%'
      | _ => false
  | [] => true
  | [c] => c = 'e' || c = 'E' || c = 'f' || c = 'F' || c = 'g' ||
      c = 'G' || c = 'n' || c = '%'
  | _ => false

/-- format(x, spec) for a float x: ValueError when the spec is invalid. -/
def formatFloatCheck (spec : String) : Except PyErr Unit :=
  if validFloatFormatSpec spec then Except.ok () else Except.error PyErr.valueError

/-- format(None, spec): object.__format__ raises TypeError on any non-empty
spec. -/
def formatNoneCheck (spec : String) : Except PyErr Unit :=
  if spec = "" then Except.ok () else Except.error PyErr.typeError

/-- The literal format spec of the peak placeholder in the summary log at
line 331 of auto_toggle.py. The conditional expression was written inside
the format spec instead of around the whole placeholder, so the spec text is
passed verbatim to __format__. -/
def summarySpec : String := ".2f if peak else \x27None\x27"

/-- Evaluation of the placeholders of the line-331 summary f-string, in
order: pnl_value and baseline with spec .2f, then the peak placeholder with
summarySpec. The value of peak here is the one read at line 236, before any
peak-file write of this tick. -/
def summaryLogCheck (peak : Option ℚ) : Except PyErr Unit := do
  _ ← formatFloatCheck ".2f"
  _ ← formatFloatCheck ".2f"
  match peak with
  | some _ => formatFloatCheck summarySpec
  | none => formatNoneCheck summarySpec

/-- The flip block (lines 333-400). Each actuator call is individually
wrapped in try/except (lines 335-355): the call is invoked, and an exception
it raises is logged and swallowed, so the sibling call and the writes below
always execute. The telegram notification (lines 357-394) is likewise fully
wrapped and never affects state. Lines 396-399 then write baseline,
direction and peak. Returns the state written and the invocations made. -/
def performFlip (f : ActuatorFaults) (d : String) (pnl : ℚ) :
    TState × List Event :=
  let guarded : Bool → Event → List Event := fun raises ev =>
    match (if raises then Except.error PyErr.runtimeError
           else Except.ok () : Except PyErr Unit) with
    | Except.ok () => [ev]
    | Except.error _ => [ev]
  let calls : List Event :=
    if d = "long" then
      guarded f.stopShortRaises Event.stopShort ++
        guarded f.startLongRaises Event.startLong
    else
      guarded f.stopLongRaises Event.stopLong ++
        guarded f.startShortRaises Event.startShort
  (⟨some pnl, some d, some pnl⟩, calls)

/-- The observable outcome of the fetch of lines 165-185. -/
inductive FetchOutcome where
  | raised
  | noData
  | fetched (v : JVal)

/-- Which sleep closes the tick: the configured interval, the 60s sleep of
the missing-url branch, or the 30s sleep of the outer exception handler. -/
inductive SleepKind where
  | interval
  | sixty
  | thirty
deriving DecidableEq

structure TickResult where
  state : TState
  events : List Event
  sleep : SleepKind
deriving DecidableEq

/-- One iteration of the while loop of _auto_toggle_loop (lines 145-405).
urlSet is whether external_status.url is configured; threshold the
configured threshold; longRunning and shortRunning the startup probe
results of line 137 (computed once before the loop). Returns the parsed
view of the state files after the iteration, the actuator invocations, and
which sleep ended the iteration. -/
def tick (urlSet : Bool) (threshold : ℚ) (longRunning shortRunning : Bool)
    (faults : ActuatorFaults) (fetch : FetchOutcome) (s : TState) :
    TickResult :=
  if !urlSet then ⟨s, [], SleepKind.sixty⟩
  else
    match fetch with
    | FetchOutcome.raised => ⟨s, [], SleepKind.interval⟩
    | FetchOutcome.noData => ⟨s, [], SleepKind.interval⟩
    | FetchOutcome.fetched v =>
      match extractPnl v with
      | none => ⟨s, [], SleepKind.interval⟩
      | some pnl =>
        -- line 228: float(pnl) on the computed total never raises
        match s.baseline with
        | none =>
          -- initialization (lines 238-255)
          let d : String :=
            if longRunning && !shortRunning then "long"
            else if shortRunning && !longRunning then "short"
            else "none"
          ⟨⟨some pnl, some d, some pnl⟩, [], SleepKind.interval⟩
        | some b =>
          let peak' := peakUpdate s.direction s.peak b pnl
          let dNew := flipDecision s.direction s.peak b threshold pnl
          match summaryLogCheck s.peak with
          | Except.error _ =>
            -- the exception reaches the outer handler (lines 403-405)
            ⟨{ s with peak := peak' }, [], SleepKind.thirty⟩
          | Except.ok () =>
            match dNew with
            | some d =>
              let r := performFlip faults d pnl
              ⟨r.1, r.2, SleepKind.interval⟩
            | none => ⟨{ s with peak := peak' }, [], SleepKind.interval⟩

/-- No actuator raises. -/
def noFaults : ActuatorFaults := ⟨false, false, false, false⟩

/-- A fetch returning a one-element position list with the given
profit_abs. -/
def fetchProfit (q : ℚ) : FetchOutcome :=
  FetchOutcome.fetched (JVal.arr [JVal.obj [("profit_abs", JVal.num q)]])

/-- Whether a tick yields no usable PnL: the fetch raised, produced no JSON,
or produced JSON from which no numeric PnL is extracted. -/
def fetchYieldsNoPnl : FetchOutcome → Bool
  | FetchOutcome.raised => true
  | FetchOutcome.noData => true
  | FetchOutcome.fetched v => (extractPnl v).isNone

/-- Restatement of the drawback rule in the words of the spec: with a
persisted peak p, long flips to short at pnl ≥ p + 500, short flips to long
at pnl ≤ p - 500; without a peak it decides nothing. -/
def drawbackRule (dir : Option String) (peak : Option ℚ) (pnl : ℚ) :
    Option String :=
  match peak with
  | some p =>
    if dir = some "long" ∧ p + 500 ≤ pnl then some "short"
    else if dir = some "short" ∧ pnl ≤ p - 500 then some "long"
    else none
  | none => none

/-- Restatement of the baseline-threshold rule in the words of the spec:
delta = pnl - baseline; long at delta ≤ -threshold, short at
delta ≥ threshold. -/
def thresholdRule (baseline threshold pnl : ℚ) : Option String :=
  if pnl - baseline ≤ -threshold then some "long"
  else if threshold ≤ pnl - baseline then some "short"
  else none

/-- Per-record PnL contribution exactly as claim C9 words it: profit_abs
when present and numeric; otherwise stake_amount * profit_pct / 100 when
both are present and numeric; otherwise 0. -/
def claimContribution (t : JVal) : ℚ :=
  match t with
  | JVal.obj fields =>
    match pyGet fields "profit_abs" with
    | JVal.num q => q
    | _ =>
      match pyGet fields "stake_amount", pyGet fields "profit_pct" with
      | JVal.num sa, JVal.num p => sa * p / 100
      | _, _ => 0
  | _ => 0

/-- Aggregate PnL as claim C9 words it. -/
def claimPnl : JVal → Option ℚ
  | JVal.arr xs => some (xs.map claimContribution).sum
  | JVal.obj fields =>
    match pyGet fields "trades" with
    | JVal.arr xs => some (xs.map claimContribution).sum
    | _ => some 0
  | _ => none

/-- Per-record PnL contribution as amended: profit_abs when it is an int or
float (Python booleans passing as ints, True as 1); otherwise, with the
stake taken as the first truthy of stake_amount, stake_amount_fiat and
amount, the value stake * profit_pct / 100 when profit_pct and the stake
are both non-None and both convert via float(); otherwise 0, and 0 for a
record that is not an object. -/
def amendedContribution (t : JVal) : ℚ :=
  match t with
  | JVal.obj fields =>
    match pyGet fields "profit_abs" with
    | JVal.num q => q
    | JVal.bool b => if b then 1 else 0
    | _ =>
      let stake := pyOr (pyGet fields "stake_amount")
        (pyOr (pyGet fields "stake_amount_fiat") (pyGet fields "amount"))
      let pct := pyGet fields "profit_pct"
      if pct.isNull || stake.isNull then 0
      else
        match pyFloat stake, pyFloat pct with
        | some sa, some p => sa * p / 100
        | _, _ => 0
  | _ => 0

/-- Python keyword-call binding: the call binds when every keyword argument
names a distinct parameter not already bound positionally and every
remaining parameter receives an argument (none of these parameters has a
default). An unexpected or duplicate keyword, or a missing argument, raises
TypeError. -/
def pyKwCall (params : List String) (nPositional : ℕ) (kwargs : List String) :
    Except PyErr Unit :=
  if nPositional ≤ params.length ∧ kwargs.Nodup ∧
      (∀ k ∈ kwargs, k ∈ params.drop nPositional) ∧
      (∀ p ∈ params.drop nPositional, p ∈ kwargs) then
    Except.ok ()
  else Except.error PyErr.typeError

/-- The parameter list of schedule_auto_toggle
(auto_toggle.py lines 408-415). -/
def scheduleAutoToggleParams : List String :=
  ["application", "get_config", "start_long", "stop_long", "start_short",
   "stop_short"]

/-- The keyword arguments of the call in run_telegram_bot
(bot.py lines 2096-2105), after the single positional application. -/
def botCallKwargs : List String :=
  ["get_config", "start_long", "stop_long", "start_short", "stop_short",
   "close_long_positions", "close_short_positions"]

/-- Outcome of binding the bot.py startup call to schedule_auto_toggle.
The body of schedule_auto_toggle, and in particular th.start() at line 422,
runs only when this binding succeeds. -/
def scheduleCallOutcome : Except PyErr Unit :=
  pyKwCall scheduleAutoToggleParams 1 botCallKwargs

/-- Every evaluation of the line-331 summary f-string raises: the peak
placeholder's format spec is invalid for a float (ValueError) and non-empty
for None (TypeError). -/
theorem summaryLogCheck_err (pk : Option ℚ) :
    summaryLogCheck pk =
      Except.error
        (match pk with
         | some _ => PyErr.valueError
         | none => PyErr.typeError) := by
  cases pk <;> rfl

theorem dirActive_none : dirActive (some "none") = false := rfl

theorem dirActive_long : dirActive (some "long") = true := rfl

theorem dirActive_short : dirActive (some "short") = true := rfl

/-- PnL extracted from a one-trade position list carrying profit_abs. -/
theorem extractPnl_profitAbs (q : ℚ) :
    extractPnl (JVal.arr [JVal.obj [("profit_abs", JVal.num q)]]) = some q := by
  simp [extractPnl, tradeAdd, pyGet, pyIsNumber, pyNumVal, List.lookup]

/-- Shape of any tick whose baseline file is present and whose fetch yields
a numeric PnL: the peak-update step runs, then the summary log raises, so
the tick ends in the outer handler with no actuator call and no baseline or
direction write. -/
theorem tick_baseline_present (T : ℚ) (lr sr : Bool) (f : ActuatorFaults)
    (v : JVal) (s : TState) (b pnl : ℚ)
    (hb : s.baseline = some b) (hv : extractPnl v = some pnl) :
    tick true T lr sr f (FetchOutcome.fetched v) s =
      ⟨{ s with peak := peakUpdate s.direction s.peak b pnl }, [],
        SleepKind.thirty⟩ := by
  simp only [tick, hv, hb, summaryLogCheck_err, Bool.not_true, Bool.false_eq_true,
    if_false]

/-- Shape of an initialization tick (baseline file absent). -/
theorem tick_init (T : ℚ) (lr sr : Bool) (f : ActuatorFaults)
    (v : JVal) (s : TState) (pnl : ℚ)
    (hb : s.baseline = none) (hv : extractPnl v = some pnl) :
    tick true T lr sr f (FetchOutcome.fetched v) s =
      ⟨⟨some pnl,
        some (if lr && !sr then "long" else if sr && !lr then "short" else "none"),
        some pnl⟩, [], SleepKind.interval⟩ := by
  simp only [tick, hv, hb, Bool.not_true, Bool.false_eq_true, if_false]

/-- Claim C2: on every tick with a baseline present and a numeric PnL
fetched, the summary-log f-string at line 331 raises (ValueError for a
float peak, TypeError for a missing peak), control reaches the outer
handler and sleeps 30s, no actuator is invoked, and baseline and direction
are never rewritten — only the peak file can change. -/
theorem summary_log_always_raises (T : ℚ) (lr sr : Bool) (f : ActuatorFaults)
    (v : JVal) (s : TState) (b pnl : ℚ)
    (hb : s.baseline = some b) (hv : extractPnl v = some pnl) :
    summaryLogCheck s.peak =
      Except.error
        (match s.peak with
         | some _ => PyErr.valueError
         | none => PyErr.typeError) ∧
    (tick true T lr sr f (FetchOutcome.fetched v) s).sleep = SleepKind.thirty ∧
    (tick true T lr sr f (FetchOutcome.fetched v) s).events = [] ∧
    (tick true T lr sr f (FetchOutcome.fetched v) s).state.baseline = s.baseline ∧
    (tick true T lr sr f (FetchOutcome.fetched v) s).state.direction = s.direction := by
  rw [tick_baseline_present T lr sr f v s b pnl hb hv]
  exact ⟨summaryLogCheck_err s.peak, rfl, rfl, rfl, rfl⟩

/-- Witness for claim C2 at a concrete tick. -/
theorem summary_log_always_raises_w :
    summaryLogCheck (some (1000 : ℚ)) = Except.error PyErr.valueError ∧
    (tick true 400 false false noFaults (fetchProfit 1420)
      ⟨some 1000, some "none", some 1000⟩).sleep = SleepKind.thirty ∧
    (tick true 400 false false noFaults (fetchProfit 1420)
      ⟨some 1000, some "none", some 1000⟩).events = [] ∧
    (tick true 400 false false noFaults (fetchProfit 1420)
      ⟨some 1000, some "none", some 1000⟩).state.baseline = some 1000 ∧
    (tick true 400 false false noFaults (fetchProfit 1420)
      ⟨some 1000, some "none", some 1000⟩).state.direction = some "none" :=
  summary_log_always_raises 400 false false noFaults
    (JVal.arr [JVal.obj [("profit_abs", JVal.num 1420)]])
    ⟨some 1000, some "none", some 1000⟩ 1000 1420 rfl (extractPnl_profitAbs 1420)

/-- Claim C1, what the code actually does on the end-to-end scenario: tick 1
initializes state to (1000, none, 1000) as the spec says, but tick 2 with
pnl 1420 and threshold 400 computes the flip decision short and then raises
at the summary log: no actuator call, no state change, 30s error sleep —
the spec's flip to short never happens. -/
theorem end_to_end_actual_behavior :
    tick true 400 false false noFaults (fetchProfit 1000) ⟨none, none, none⟩ =
      ⟨⟨some 1000, some "none", some 1000⟩, [], SleepKind.interval⟩ ∧
    tick true 400 false false noFaults (fetchProfit 1420)
        ⟨some 1000, some "none", some 1000⟩ =
      ⟨⟨some 1000, some "none", some 1000⟩, [], SleepKind.thirty⟩ ∧
    flipDecision (some "none") (some 1000) 1000 400 1420 = some "short" := by
  refine ⟨?_, ?_, ?_⟩
  · show tick true 400 false false noFaults (FetchOutcome.fetched
      (JVal.arr [JVal.obj [("profit_abs", JVal.num 1000)]])) ⟨none, none, none⟩ = _
    rw [tick_init 400 false false noFaults _ ⟨none, none, none⟩ 1000 rfl
      (extractPnl_profitAbs 1000)]
    simp
  · simp only [fetchProfit]
    rw [tick_baseline_present 400 false false noFaults _
      ⟨some 1000, some "none", some 1000⟩ 1000 1420 rfl (extractPnl_profitAbs 1420)]
    simp [peakUpdate, dirActive_none]
  · simp only [flipDecision, dirActive_none]
    norm_num

/-- Claim C3, what the code actually does: the drawback decision itself is
computed as the claim says (short at peak + 500, long at peak - 500, no
decision 0.001 inside the band), but a tick that decides a flip still ends
in the line-331 exception with no actuator call and no state write. -/
theorem drawback_flip_actual_behavior :
    flipDecision (some "long") (some 1000) 1000 400 1500 = some "short" ∧
    flipDecision (some "long") (some 1000) 1000 400 1499.999 = none ∧
    flipDecision (some "short") (some 1000) 1000 400 500 = some "long" ∧
    flipDecision (some "short") (some 1000) 1000 400 500.001 = none ∧
    tick true 400 false false noFaults (fetchProfit 1500)
        ⟨some 1000, some "long", some 1000⟩ =
      ⟨⟨some 1000, some "long", some 1000⟩, [], SleepKind.thirty⟩ ∧
    tick true 400 false false noFaults (fetchProfit 500)
        ⟨some 1000, some "short", some 1000⟩ =
      ⟨⟨some 1000, some "short", some 1000⟩, [], SleepKind.thirty⟩ := by
  refine ⟨?_, ?_, ?_, ?_, ?_, ?_⟩
  · simp only [flipDecision, dirActive_long]; norm_num
  · simp only [flipDecision, dirActive_long]; norm_num
  · simp only [flipDecision, dirActive_short]; norm_num
  · simp only [flipDecision, dirActive_short]; norm_num
  · simp only [fetchProfit]
    rw [tick_baseline_present 400 false false noFaults _
      ⟨some 1000, some "long", some 1000⟩ 1000 1500 rfl (extractPnl_profitAbs 1500)]
    simp [peakUpdate, dirActive_long]
    norm_num
  · simp only [fetchProfit]
    rw [tick_baseline_present 400 false false noFaults _
      ⟨some 1000, some "short", some 1000⟩ 1000 500 rfl (extractPnl_profitAbs 500)]
    simp [peakUpdate, dirActive_short]
    norm_num

/-- Claim C4, what the code actually does: the threshold decision is
computed as the claim says (long at delta ≤ -T, short at delta ≥ T, none
strictly inside the band), but a deciding tick still ends in the line-331
exception with no actuator call and no state write; a non-deciding tick
indeed leaves all three values unchanged. -/
theorem threshold_flip_actual_behavior :
    flipDecision (some "none") (some 1000) 1000 400 600 = some "long" ∧
    flipDecision (some "none") (some 1000) 1000 400 1400 = some "short" ∧
    flipDecision (some "none") (some 1000) 1000 400 1399.999 = none ∧
    flipDecision (some "none") (some 1000) 1000 400 600.001 = none ∧
    tick true 400 false false noFaults (fetchProfit 1400)
        ⟨some 1000, some "none", some 1000⟩ =
      ⟨⟨some 1000, some "none", some 1000⟩, [], SleepKind.thirty⟩ ∧
    tick true 400 false false noFaults (fetchProfit 1200)
        ⟨some 1000, some "none", some 1000⟩ =
      ⟨⟨some 1000, some "none", some 1000⟩, [], SleepKind.thirty⟩ := by
  refine ⟨?_, ?_, ?_, ?_, ?_, ?_⟩
  · simp only [flipDecision, dirActive_none]; norm_num
  · simp only [flipDecision, dirActive_none]; norm_num
  · simp only [flipDecision, dirActive_none]; norm_num
  · simp only [flipDecision, dirActive_none]; norm_num
  · simp only [fetchProfit]
    rw [tick_baseline_present 400 false false noFaults _
      ⟨some 1000, some "none", some 1000⟩ 1000 1400 rfl (extractPnl_profitAbs 1400)]
    simp [peakUpdate, dirActive_none]
  · simp only [fetchProfit]
    rw [tick_baseline_present 400 false false noFaults _
      ⟨some 1000, some "none", some 1000⟩ 1000 1200 rfl (extractPnl_profitAbs 1200)]
    simp [peakUpdate, dirActive_none]

/-- Counterexample to claim C5: with direction long, baseline 5, peak 10
and fetched pnl 7 we have pnl < peak, so the claim requires the peak to be
updated to 7, but the code leaves it at 10 (the update also requires
pnl < baseline). -/
theorem peak_update_claim_cex :
    (tick true 400 false false noFaults (fetchProfit 7)
        ⟨some 5, some "long", some 10⟩).state.peak = some 10 ∧
    (7 : ℚ) < 10 := by
  constructor
  · simp only [fetchProfit]
    rw [tick_baseline_present 400 false false noFaults _
      ⟨some 5, some "long", some 10⟩ 5 7 rfl (extractPnl_profitAbs 7)]
    norm_num [peakUpdate, dirActive_long]
  · norm_num

/-- Claim C5 as amended: with baseline and peak persisted, a long tick
updates the peak to pnl exactly when pnl < baseline and pnl < peak, and a
short tick exactly when pnl > baseline and pnl > peak; otherwise the peak
is unchanged. -/
theorem peak_update_code_rule (T : ℚ) (lr sr : Bool) (f : ActuatorFaults)
    (v : JVal) (b p pnl : ℚ) (hv : extractPnl v = some pnl) :
    (tick true T lr sr f (FetchOutcome.fetched v)
        ⟨some b, some "long", some p⟩).state.peak =
      (if pnl < b ∧ pnl < p then some pnl else some p) ∧
    (tick true T lr sr f (FetchOutcome.fetched v)
        ⟨some b, some "short", some p⟩).state.peak =
      (if b < pnl ∧ p < pnl then some pnl else some p) := by
  rw [tick_baseline_present T lr sr f v ⟨some b, some "long", some p⟩ b pnl rfl hv,
    tick_baseline_present T lr sr f v ⟨some b, some "short", some p⟩ b pnl rfl hv]
  constructor
  · show peakUpdate (some "long") (some p) b pnl = _
    simp only [peakUpdate, dirActive_long, if_true]
    split_ifs <;> simp_all
  · show peakUpdate (some "short") (some p) b pnl = _
    simp only [peakUpdate, dirActive_short, if_true]
    split_ifs <;> simp_all

/-- Witness for the amended claim C5 at a concrete tick. -/
theorem peak_update_code_rule_w :
    (tick true 400 false false noFaults (fetchProfit 7)
        ⟨some 10, some "long", some 8⟩).state.peak =
      (if (7 : ℚ) < 10 ∧ (7 : ℚ) < 8 then some (7 : ℚ) else some 8) ∧
    (tick true 400 false false noFaults (fetchProfit 7)
        ⟨some 10, some "short", some 8⟩).state.peak =
      (if (10 : ℚ) < 7 ∧ (8 : ℚ) < 7 then some (7 : ℚ) else some 8) :=
  peak_update_code_rule 400 false false noFaults
    (JVal.arr [JVal.obj [("profit_abs", JVal.num 7)]]) 10 8 7
    (extractPnl_profitAbs 7)

/-- Counterexample to claim C6: with direction long (not none) but the peak
file absent, the baseline-threshold rule is evaluated and even decides a
flip to long — a decision the drawback rule can never produce from
direction long. -/
theorem flip_dispatch_claim_cex :
    flipDecision (some "long") none 0 400 (-400) = some "long" ∧
    dirActive (some "long") = true := by
  constructor
  · simp only [flipDecision, dirActive_long]
    norm_num
  · rfl

/-- Claim C6 as amended: the drawback rule decides exactly when the
direction is active (non-empty and not none) and a peak was read; in every
other tick — including an active direction with the peak file absent — the
baseline-threshold rule decides. -/
theorem flip_dispatch_code_rule (dir : Option String) (peak : Option ℚ)
    (b T pnl : ℚ) :
    flipDecision dir peak b T pnl =
      (if dirActive dir && peak.isSome then drawbackRule dir peak pnl
       else thresholdRule b T pnl) := by
  cases peak <;> cases hd : dirActive dir <;>
    simp [flipDecision, drawbackRule, thresholdRule, hd]

/-- Claim C7: a tick whose fetch raises, returns no JSON, or yields no
numeric PnL leaves all three persisted values identical to their pre-tick
values, performs no actuator call, and sleeps the normal interval. -/
theorem fetch_failure_noop (T : ℚ) (lr sr : Bool) (f : ActuatorFaults)
    (fetch : FetchOutcome) (s : TState) (h : fetchYieldsNoPnl fetch = true) :
    tick true T lr sr f fetch s = ⟨s, [], SleepKind.interval⟩ := by
  cases fetch with
  | raised => rfl
  | noData => rfl
  | fetched v =>
    cases he : extractPnl v with
    | none => simp only [tick, he, Bool.not_true, Bool.false_eq_true, if_false]
    | some q => simp [fetchYieldsNoPnl, he] at h

/-- Witness for claim C7 at a concrete failing tick. -/
theorem fetch_failure_noop_w :
    tick true 400 false false noFaults FetchOutcome.raised
        ⟨some 1, some "long", some 2⟩ =
      ⟨⟨some 1, some "long", some 2⟩, [], SleepKind.interval⟩ :=
  fetch_failure_noop 400 false false noFaults FetchOutcome.raised
    ⟨some 1, some "long", some 2⟩ rfl

/-- Claim C8: in the flip block, whatever the actuator fault configuration
— in particular when stop_short raises on a flip to long, or stop_long
raises on a flip to short — both calls of the flip are still invoked in
order and the new state (baseline = peak = pnl, new direction) is still
written. -/
theorem actuator_isolation (f : ActuatorFaults) (pnl : ℚ)
    (h1 : f.stopShortRaises = true) (h2 : f.stopLongRaises = true) :
    performFlip f "long" pnl =
      (⟨some pnl, some "long", some pnl⟩, [Event.stopShort, Event.startLong]) ∧
    performFlip f "short" pnl =
      (⟨some pnl, some "short", some pnl⟩, [Event.stopLong, Event.startShort]) := by
  obtain ⟨a, b, c, d⟩ := f
  cases a <;> cases b <;> cases c <;> cases d <;> exact ⟨rfl, rfl⟩

/-- Witness for claim C8 with both stop actuators raising. -/
theorem actuator_isolation_w :
    performFlip ⟨false, true, false, true⟩ "long" 7 =
      (⟨some 7, some "long", some 7⟩, [Event.stopShort, Event.startLong]) ∧
    performFlip ⟨false, true, false, true⟩ "short" 7 =
      (⟨some 7, some "short", some 7⟩, [Event.stopLong, Event.startShort]) :=
  actuator_isolation ⟨false, true, false, true⟩ 7 rfl rfl

/-- Counterexample to claim C9: a record with profit_pct 10 and amount 100
but no stake_amount contributes 0 under the claim's rule, yet the code
extracts PnL 10 through the amount fallback. -/
theorem pnl_aggregation_claim_cex :
    extractPnl (JVal.arr [JVal.obj [("profit_pct", JVal.num 10),
        ("amount", JVal.num 100)]]) = some 10 ∧
    claimPnl (JVal.arr [JVal.obj [("profit_pct", JVal.num 10),
        ("amount", JVal.num 100)]]) = some 0 ∧
    (10 : ℚ) ≠ 0 := by
  refine ⟨?_, ?_, by norm_num⟩
  · simp [extractPnl, tradeAdd, pyGet, List.lookup, pyIsNumber, pyOr, pyTruthy,
      pyFloat, JVal.isNull]
  · simp [claimPnl, claimContribution, pyGet, List.lookup]

/-- The source fold body agrees record-by-record with the amended
contribution rule. -/
theorem tradeAdd_eq_amended (t : JVal) : tradeAdd t = amendedContribution t := by
  cases t with
  | obj fields =>
    simp only [tradeAdd, amendedContribution]
    cases hpa : pyGet fields "profit_abs" <;>
      simp only [pyIsNumber, pyNumVal] <;>
      cases hp : (pyGet fields "profit_pct").isNull <;>
      cases hs : (pyOr (pyGet fields "stake_amount")
        (pyOr (pyGet fields "stake_amount_fiat")
          (pyGet fields "amount"))).isNull <;>
      simp [hp, hs]
  | null => rfl
  | bool b => rfl
  | num q => rfl
  | str s => rfl
  | arr xs => rfl

/-- The accumulating fold of lines 197-214 sums the amended contributions. -/
theorem foldl_tradeAdd (l : List JVal) (acc : ℚ) :
    l.foldl (fun a t => a + tradeAdd t) acc =
      acc + (l.map amendedContribution).sum := by
  induction l generalizing acc with
  | nil => simp
  | cons t rest ih =>
    rw [List.foldl_cons, ih, tradeAdd_eq_amended]
    simp [add_assoc]

/-- Claim C9 as amended: for a list payload, or an object whose trades key
holds a list, the extracted PnL is the sum of the amended per-record
contributions (profit_abs when int/float including bools; else the first
truthy of stake_amount, stake_amount_fiat, amount times profit_pct / 100
when both are non-None and convert via float(); else 0), and the empty list
yields PnL 0 as a valid sample. -/
theorem pnl_aggregation_code_rule (l : List JVal)
    (fields : List (String × JVal)) :
    extractPnl (JVal.arr l) = some ((l.map amendedContribution).sum) ∧
    (pyGet fields "trades" = JVal.arr l →
      extractPnl (JVal.obj fields) = some ((l.map amendedContribution).sum)) ∧
    extractPnl (JVal.arr []) = some 0 := by
  refine ⟨?_, ?_, rfl⟩
  · simp [extractPnl, foldl_tradeAdd]
  · intro h
    simp [extractPnl, h, foldl_tradeAdd]

/-- Witness for the amended claim C9 on a concrete trades object. -/
theorem pnl_aggregation_code_rule_w :
    extractPnl (JVal.obj [("trades",
        JVal.arr [JVal.obj [("profit_abs", JVal.num 3)]])]) =
      some (([JVal.obj [("profit_abs", JVal.num 3)]].map amendedContribution).sum) :=
  (pnl_aggregation_code_rule [JVal.obj [("profit_abs", JVal.num 3)]]
    [("trades", JVal.arr [JVal.obj [("profit_abs", JVal.num 3)]])]).2.1 rfl

/-- Claim C10: binding the bot.py startup call to schedule_auto_toggle
raises TypeError, because close_long_positions (and likewise
close_short_positions) is passed as a keyword but is not a parameter, so
the auto-toggle thread is never started. -/
theorem schedule_call_type_error :
    scheduleCallOutcome = Except.error PyErr.typeError ∧
    "close_long_positions" ∈ botCallKwargs ∧
    "close_long_positions" ∉ scheduleAutoToggleParams :=
  ⟨rfl, by decide, by decide⟩

end AutoToggle
